import Mathlib

/-!
Verification of the rsfq retrieval pipeline against its specification.

This development shallowly embeds the core of the rsfq source (accession
classification in `utils.rs`, ENA metadata retrieval in `provs/ena.rs`,
verified per-file download in `core.rs`, and the SRA extraction pipeline in
`provs/sra.rs`) as executable Lean definitions, and proves or refutes the
frozen claims about them.  External effects (HTTP responses, process exit
codes, files produced by spawned tools, checksums of downloaded files) are
modelled as explicit environment parameters; observable events (process
invocations, sleeps, checksum computations, file creation and removal) are
recorded in traces so that claims about "zero attempts" or "no side effects"
are statements about those traces.
-/

namespace Rsfq

/-! ## String helpers

Rust's `str::split(c)`, `str::lines()` and `Path::file_name()` are modelled
by structural recursion over `List Char` so that every definition reduces in
the kernel.  `splitOnChar` mirrors Rust `split`: splitting the empty string
yields one empty piece, and a trailing separator yields a trailing empty
piece. -/

def splitOnChar (c : Char) : List Char → List (List Char)
  | [] => [[]]
  | x :: xs =>
    let r := splitOnChar c xs
    if x == c then [] :: r
    else
      match r with
      | [] => [[x]]
      | h :: t => (x :: h) :: t

def splitOnCharS (c : Char) (s : String) : List String :=
  (splitOnChar c s.toList).map String.mk

def strEndsWith (s suffix : String) : Bool :=
  suffix.toList.isSuffixOf s.toList

/-- Strip one trailing carriage return, as Rust `lines()` does on pieces that
were terminated by a newline. -/
def stripCR (ln : List Char) : List Char :=
  if ln.getLast? == some '\r' then ln.dropLast else ln

/-- Rust `str::lines()`: split on newline; a final empty piece produced by a
trailing newline is dropped; a carriage return is stripped only from pieces
that were newline-terminated. -/
def rustLines (l : List Char) : List (List Char) :=
  if l.isEmpty then []
  else
    let parts := splitOnChar '\n' l
    let front := (parts.dropLast).map stripCR
    match parts.getLast? with
    | some [] => front
    | some lst => front ++ [lst]
    | none => front

/-- Rust `Path::file_name()` for the URL-like paths handled by the code: the
last nonempty `/`-separated segment, refusing a trailing `..`. -/
def fileName (s : String) : Option String :=
  let segs := (splitOnChar '/' s.toList).filter (fun seg => !seg.isEmpty)
  match segs.getLast? with
  | none => none
  | some seg => if seg == ['.', '.'] then none else some (String.mk seg)

/-- `PathBuf::join` for the simple directory/file joins used by the code. -/
def joinPath (dir file : String) : String := dir ++ "/" ++ file

/-- Equality of hex strings up to the case of their letters (used to state
the spec's "case-insensitive hex" comparison; the source itself compares
exactly). -/
def hexCaseInsensitiveEq (a b : String) : Bool :=
  a.toList.map Char.toLower == b.toList.map Char.toLower

/-! ## Accession classifier (`utils.rs`)

The four anchored patterns of `validate_query` are translated literally:

* `PROJECT_STUDY_RE`    = `^PRJ[EDN][A-Z][0-9]+$|^[EDS]RP[0-9]{6,}$`
* `SAMPLE_BIOSAMPLE_RE` = `^SAM[EDN][A-Z]?[0-9]+$|^[EDS]RS[0-9]{6,}$`
* `EXPERIMENT_RE`       = `^[EDS]RX[0-9]{6,}$`
* `RUN_RE`              = `^[EDS]RR[0-9]{6,}$`
-/

/-- One or more ASCII digits (`[0-9]+`). -/
def digits1 (l : List Char) : Bool :=
  !l.isEmpty && l.all Char.isDigit

/-- Six or more ASCII digits (`[0-9]{6,}`). -/
def digits6 (l : List Char) : Bool :=
  Nat.ble 6 l.length && l.all Char.isDigit

/-- `^PRJ[EDN][A-Z][0-9]+$`. -/
def prjMatch : List Char → Bool
  | c0 :: c1 :: c2 :: c3 :: c4 :: rest =>
    c0 == 'P' && c1 == 'R' && c2 == 'J' &&
    (c3 == 'E' || c3 == 'D' || c3 == 'N') && c4.isUpper && digits1 rest
  | _ => false

/-- Tail of the `^SAM[EDN][A-Z]?[0-9]+$` pattern after `SAM[EDN]`: an
optional uppercase letter followed by one or more digits. -/
def samTail : List Char → Bool
  | [] => false
  | c :: rest => if c.isDigit then rest.all Char.isDigit else c.isUpper && digits1 rest

/-- `^SAM[EDN][A-Z]?[0-9]+$`. -/
def samMatch : List Char → Bool
  | c0 :: c1 :: c2 :: c3 :: rest =>
    c0 == 'S' && c1 == 'A' && c2 == 'M' &&
    (c3 == 'E' || c3 == 'D' || c3 == 'N') && samTail rest
  | _ => false

/-- `^[EDS]R<x>[0-9]{6,}$` — the common shape of the SRP/SRS/SRX/SRR
alternates, with `x` the third character. -/
def edsrMatch (x : Char) : List Char → Bool
  | c0 :: c1 :: c2 :: rest =>
    (c0 == 'E' || c0 == 'D' || c0 == 'S') && c1 == 'R' && c2 == x && digits6 rest
  | _ => false

def PROJECT_STUDY_RE (s : String) : Bool :=
  prjMatch s.toList || edsrMatch 'P' s.toList

def SAMPLE_BIOSAMPLE_RE (s : String) : Bool :=
  samMatch s.toList || edsrMatch 'S' s.toList

def EXPERIMENT_RE (s : String) : Bool :=
  edsrMatch 'X' s.toList

def RUN_RE (s : String) : Bool :=
  edsrMatch 'R' s.toList

/-- `validate_query` from `utils.rs`.  The code calls `std::process::exit(1)`
on an unclassifiable accession; that terminal input error is modelled as
`none`. -/
def validate_query (query : String) : Option String :=
  if PROJECT_STUDY_RE query then
    some ("(study_accession=" ++ query ++ " OR secondary_study_accession=" ++ query ++ ")")
  else if SAMPLE_BIOSAMPLE_RE query then
    some ("(sample_accession=" ++ query ++ " OR secondary_sample_accession=" ++ query ++ ")")
  else if EXPERIMENT_RE query then
    some ("experiment_accession=" ++ query)
  else if RUN_RE query then
    some ("run_accession=" ++ query)
  else
    none

/-! The four patterns are mutually exclusive: each forces a distinct third
character (`J`, `P`, `M`, `S`, `X`, `R` across the six alternates). -/

def thirdChar : List Char → Option Char
  | _ :: _ :: c :: _ => some c
  | _ => none

theorem prjMatch_third {l : List Char} (h : prjMatch l = true) :
    thirdChar l = some 'J' := by
  rcases l with _ | ⟨c0, _ | ⟨c1, _ | ⟨c2, _ | ⟨c3, _ | ⟨c4, rest⟩⟩⟩⟩⟩ <;>
    simp_all [prjMatch, thirdChar]

theorem samMatch_third {l : List Char} (h : samMatch l = true) :
    thirdChar l = some 'M' := by
  rcases l with _ | ⟨c0, _ | ⟨c1, _ | ⟨c2, _ | ⟨c3, rest⟩⟩⟩⟩ <;>
    simp_all [samMatch, thirdChar]

theorem edsrMatch_third {x : Char} {l : List Char} (h : edsrMatch x l = true) :
    thirdChar l = some x := by
  rcases l with _ | ⟨c0, _ | ⟨c1, _ | ⟨c2, rest⟩⟩⟩ <;>
    simp_all [edsrMatch, thirdChar]

theorem project_third {q : String} (h : PROJECT_STUDY_RE q = true) :
    thirdChar q.toList = some 'J' ∨ thirdChar q.toList = some 'P' := by
  rcases Bool.or_eq_true_iff.mp h with h1 | h1
  · exact Or.inl (prjMatch_third h1)
  · exact Or.inr (edsrMatch_third h1)

theorem sample_third {q : String} (h : SAMPLE_BIOSAMPLE_RE q = true) :
    thirdChar q.toList = some 'M' ∨ thirdChar q.toList = some 'S' := by
  rcases Bool.or_eq_true_iff.mp h with h1 | h1
  · exact Or.inl (samMatch_third h1)
  · exact Or.inr (edsrMatch_third h1)

theorem project_false_of_third {q : String} {x : Char}
    (hx : thirdChar q.toList = some x) (h1 : x ≠ 'J') (h2 : x ≠ 'P') :
    PROJECT_STUDY_RE q = false := by
  cases hp : PROJECT_STUDY_RE q
  · rfl
  · rcases project_third hp with h | h <;> rw [hx] at h <;>
      cases Option.some.inj h <;> simp_all

theorem sample_false_of_third {q : String} {x : Char}
    (hx : thirdChar q.toList = some x) (h1 : x ≠ 'M') (h2 : x ≠ 'S') :
    SAMPLE_BIOSAMPLE_RE q = false := by
  cases hp : SAMPLE_BIOSAMPLE_RE q
  · rfl
  · rcases sample_third hp with h | h <;> rw [hx] at h <;>
      cases Option.some.inj h <;> simp_all

theorem experiment_false_of_third {q : String} {x : Char}
    (hx : thirdChar q.toList = some x) (h1 : x ≠ 'X') :
    EXPERIMENT_RE q = false := by
  cases hp : EXPERIMENT_RE q
  · rfl
  · have h := edsrMatch_third hp
    rw [hx] at h
    cases Option.some.inj h
    simp_all

/-- Claim C6: classification applies the four fixed accession patterns and the
(unique, mutually exclusive) match determines the query shape: a project/study
match queries both study-accession fields, a sample match both
sample-accession fields, an experiment match a single `experiment_accession`
filter, a run match a single `run_accession` filter; a string matching none
of the four patterns yields the terminal input error instead of a query. -/
theorem C6_classify (q : String) :
    (PROJECT_STUDY_RE q = true →
      validate_query q =
        some ("(study_accession=" ++ q ++ " OR secondary_study_accession=" ++ q ++ ")")) ∧
    (SAMPLE_BIOSAMPLE_RE q = true →
      validate_query q =
        some ("(sample_accession=" ++ q ++ " OR secondary_sample_accession=" ++ q ++ ")")) ∧
    (EXPERIMENT_RE q = true → validate_query q = some ("experiment_accession=" ++ q)) ∧
    (RUN_RE q = true → validate_query q = some ("run_accession=" ++ q)) ∧
    (PROJECT_STUDY_RE q = false → SAMPLE_BIOSAMPLE_RE q = false →
      EXPERIMENT_RE q = false → RUN_RE q = false → validate_query q = none) := by
  refine ⟨?_, ?_, ?_, ?_, ?_⟩
  · intro h
    simp [validate_query, h]
  · intro h
    rcases sample_third h with hx | hx <;>
      simp [validate_query, h, project_false_of_third hx (by decide) (by decide)]
  · intro h
    have h2 : edsrMatch 'X' q.toList = true := h
    have hx := edsrMatch_third h2
    simp [validate_query, h,
      project_false_of_third hx (by decide) (by decide),
      sample_false_of_third hx (by decide) (by decide)]
  · intro h
    have h2 : edsrMatch 'R' q.toList = true := h
    have hx := edsrMatch_third h2
    simp [validate_query, h,
      project_false_of_third hx (by decide) (by decide),
      sample_false_of_third hx (by decide) (by decide),
      experiment_false_of_third hx (by decide)]
  · intro h1 h2 h3 h4
    simp [validate_query, h1, h2, h3, h4]

/-- Witness for C6: one concrete accession of each category, plus one
unclassifiable string. -/
theorem C6_classify_witness :
    validate_query "PRJEB12345" =
      some "(study_accession=PRJEB12345 OR secondary_study_accession=PRJEB12345)" ∧
    validate_query "SAMEA3121481" =
      some "(sample_accession=SAMEA3121481 OR secondary_sample_accession=SAMEA3121481)" ∧
    validate_query "ERX123456" = some "experiment_accession=ERX123456" ∧
    validate_query "ERR123456" = some "run_accession=ERR123456" ∧
    validate_query "notAnAccession" = none :=
  ⟨(C6_classify "PRJEB12345").1 (by decide),
   (C6_classify "SAMEA3121481").2.1 (by decide),
   (C6_classify "ERX123456").2.2.1 (by decide),
   (C6_classify "ERR123456").2.2.2.1 (by decide),
   (C6_classify "notAnAccession").2.2.2.2 (by decide) (by decide) (by decide) (by decide)⟩

/-! ## ENA metadata client (`provs/ena.rs`)

`get_ena_metadata` performs one HTTP GET and parses a tab-separated body;
the HTTP layer is modelled by an explicit `HttpResult` input, and the parse
of a 2xx body is the pure function `parseEnaBody`.  `get_run_info` is the
retry loop around it; the stream of responses is an environment function
indexed by the attempt counter, and the trace records requests and sleeps. -/

/-- One run record: field name to value, empty values omitted. -/
abbrev Record := List (String × String)

inductive HttpResult where
  | ok (status : Nat) (body : String)
  | err (msg : String)
deriving DecidableEq

inductive ENAServerResponse where
  | success (data : List Record)
  | error (status : Nat) (message : String)
deriving DecidableEq

def ENAServerResponse.isSuccess : ENAServerResponse → Bool
  | .success _ => true
  | .error _ _ => false

/-- Parse a 2xx response body: first line is the header row, subsequent
nonempty lines are records keyed by header position; empty values are
omitted.  `none` means the body had no lines at all. -/
def parseEnaBody (text : String) : Option (List Record) :=
  match rustLines text.toList with
  | [] => none
  | header :: rows =>
    let headers := splitOnChar '\t' header
    some ((rows.filter (fun l => !l.isEmpty)).map (fun line =>
      ((headers.zip (splitOnChar '\t' line)).filter (fun kv => !kv.2.isEmpty)).map
        (fun kv => (String.mk kv.1, String.mk kv.2))))

/-- Number of records a response body parses to. -/
def enaRecordCount (body : String) : Nat :=
  match parseEnaBody body with
  | none => 0
  | some d => d.length

def emptyRespMsg : String :=
  "ERROR: Query was successful, but received an empty response for query"

def noHeaderMsg : String :=
  "ERROR: Query was successful, but response was empty"

/-- Classification of a 2xx response body in `get_ena_metadata`: a body with
no header line, or whose parsed record list is empty, is an error with status
200; otherwise the parsed records are a success. -/
def ena_classify_body (body : String) : ENAServerResponse :=
  match parseEnaBody body with
  | none => .error 200 noHeaderMsg
  | some data => if data.isEmpty then .error 200 emptyRespMsg else .success data

/-- `get_ena_metadata` from `provs/ena.rs`, as a function of the HTTP
outcome: a 2xx response body is parsed and classified; a non-2xx response or
a transport error is an error. -/
def get_ena_metadata (r : HttpResult) : ENAServerResponse :=
  match r with
  | .err m => .error 500 m
  | .ok status body =>
    if 200 ≤ status ∧ status < 300 then ena_classify_body body
    else .error status body

structure EnaTrace where
  requests : Nat
  sleeps : Nat
  result : Option (List Record)
deriving DecidableEq

/-- The `while max_attempts >= attempts` loop of `get_run_info`: `attempts`
is the current attempt counter (incremented only on error) and the fuel is
the number of loop iterations still permitted. -/
def get_run_info_loop (resp : Nat → HttpResult) : Nat → Nat → EnaTrace
  | _, 0 => ⟨0, 0, none⟩
  | attempts, fuel + 1 =>
    match get_ena_metadata (resp attempts) with
    | .success data => ⟨1, 0, some data⟩
    | .error _ _ =>
      let r := get_run_info_loop resp (attempts + 1) fuel
      ⟨r.requests + 1, r.sleeps + 1, r.result⟩

/-- `get_run_info` from `provs/ena.rs`: run the loop starting at attempt 0
(the guard admits attempts `0..=max_attempts`); an empty accumulated result
afterwards is `std::process::exit(1)`, modelled as `result = none`. -/
def get_run_info (resp : Nat → HttpResult) (maxAttempts : Nat) : EnaTrace :=
  let t := get_run_info_loop resp 0 (maxAttempts + 1)
  match t.result with
  | some data => if data.isEmpty then { t with result := none } else t
  | none => t

theorem ena_classify_body_success {body : String} {d : List Record}
    (h : ena_classify_body body = .success d) : d.isEmpty = false := by
  cases hp : parseEnaBody body with
  | none => simp [ena_classify_body, hp] at h
  | some data =>
    simp only [ena_classify_body, hp] at h
    split at h
    · simp at h
    · next hne =>
      injection h with h1
      subst h1
      simpa using hne

theorem get_ena_metadata_success_ne_nil {r : HttpResult} {d : List Record}
    (h : get_ena_metadata r = .success d) : d.isEmpty = false := by
  cases r with
  | err m => simp [get_ena_metadata] at h
  | ok status body =>
    simp only [get_ena_metadata] at h
    split at h
    · exact ena_classify_body_success h
    · simp at h

theorem ena_classify_body_zero {body : String}
    (hb : enaRecordCount body = 0) : (ena_classify_body body).isSuccess = false := by
  unfold enaRecordCount at hb
  unfold ena_classify_body
  cases hp : parseEnaBody body with
  | none => simp [ENAServerResponse.isSuccess]
  | some d =>
    rw [hp] at hb
    simp only at hb
    have : d.isEmpty = true := by simpa [List.isEmpty_iff, List.length_eq_zero] using hb
    simp [this, ENAServerResponse.isSuccess]

theorem get_run_info_loop_spec (resp : Nat → HttpResult) (data : List Record) :
    ∀ (i fuel a : Nat), i < fuel →
      (∀ k, k < i → (get_ena_metadata (resp (a + k))).isSuccess = false) →
      get_ena_metadata (resp (a + i)) = .success data →
      get_run_info_loop resp a fuel = ⟨i + 1, i, some data⟩ := by
  intro i
  induction i with
  | zero =>
    intro fuel a hf _ hs
    match fuel, hf with
    | fuel + 1, _ =>
      simp only [get_run_info_loop]
      rw [show a + 0 = a from rfl] at hs
      rw [hs]
  | succ i ih =>
    intro fuel a hf hb hs
    match fuel, hf with
    | fuel + 1, hf =>
      simp only [get_run_info_loop]
      have h0 : (get_ena_metadata (resp a)).isSuccess = false := by
        have := hb 0 (Nat.succ_pos i)
        simpa using this
      cases hmeta : get_ena_metadata (resp a) with
      | success d => rw [hmeta] at h0; simp [ENAServerResponse.isSuccess] at h0
      | error s m =>
        have hrec : get_run_info_loop resp (a + 1) fuel = ⟨i + 1, i, some data⟩ := by
          apply ih fuel (a + 1) (Nat.lt_of_succ_lt_succ hf)
          · intro k hk
            have := hb (k + 1) (Nat.succ_lt_succ hk)
            rw [show a + (k + 1) = a + 1 + k by omega] at this
            exact this
          · rw [show a + 1 + i = a + (i + 1) by omega]
            exact hs
        rw [hrec]

/-- Claim C5: an HTTP-success response whose body parses to zero records is
classified as a retryable failure and not as success, and any attempt whose
response parses to one or more records ends the metadata loop immediately
with those records — exactly `i + 1` requests and `i` retry sleeps when the
first `i` attempts fail. -/
theorem C5_metadata_retry (resp : Nat → HttpResult) (maxA i : Nat) (data : List Record)
    (hi : i ≤ maxA)
    (hbefore : ∀ k, k < i → (get_ena_metadata (resp k)).isSuccess = false)
    (hsucc : get_ena_metadata (resp i) = .success data) :
    get_run_info resp maxA = ⟨i + 1, i, some data⟩ ∧
    ∀ body : String, enaRecordCount body = 0 →
      (get_ena_metadata (.ok 200 body)).isSuccess = false := by
  constructor
  · have hloop := get_run_info_loop_spec resp data i (maxA + 1) 0
      (Nat.lt_succ_of_le hi) (by simpa using hbefore) (by simpa using hsucc)
    have hne := get_ena_metadata_success_ne_nil hsucc
    simp [get_run_info, hloop, hne]
  · intro body hb
    have hc := ena_classify_body_zero hb
    simp only [get_ena_metadata]
    rw [if_pos (by omega)]
    exact hc

/-- Witness for C5: two empty-body 200 responses (zero parsed records) are
retried, and the third attempt's single-record body ends the loop: three
requests, two sleeps. -/
theorem C5_metadata_retry_witness :
    get_run_info
      (fun n => if n < 2 then HttpResult.ok 200 "run_accession\n"
                else HttpResult.ok 200 "run_accession\nSRR000001") 3
      = ⟨3, 2, some [[("run_accession", "SRR000001")]]⟩ ∧
    (get_ena_metadata (.ok 200 "run_accession\n")).isSuccess = false := by
  have h := C5_metadata_retry
    (fun n => if n < 2 then HttpResult.ok 200 "run_accession\n"
              else HttpResult.ok 200 "run_accession\nSRR000001") 3 2
    [[("run_accession", "SRR000001")]]
    (by decide)
    (by
      intro k hk
      match k, hk with
      | 0, _ => decide
      | 1, _ => decide)
    (by decide)
  exact ⟨h.1, h.2 "run_accession\n" (by decide)⟩

/-! ## Verified per-file download (`core.rs`)

`download` derives the destination from the URL's final path segment, skips
an existing file unless `force`, and otherwise runs the
`while max_attempts >= attempt` retry loop.  One loop iteration spawns the
retriever process; the environment `env` gives, per attempt index, the
process exit status and the MD5 of the local file after that attempt (the
code's `md5sum` streams the file; its value here is environment-supplied).
The trace records process invocations, checksum computations and sleeps, and
`succeeded` records whether the loop exited through its success `break`
(the "Downloaded ... successfully!" / force-accept paths).  The function's
Rust return value is `ret`: `none` on the skip path, `some path`
otherwise — including after exhausting all attempts. -/

structure DlStep where
  status : Int
  fileMd5 : String
deriving DecidableEq

structure LoopOut where
  invocations : Nat
  md5Checks : Nat
  sleeps : Nat
  succeeded : Bool
deriving DecidableEq

/-- The retry loop of `download`: `attempt` is the current attempt counter
(incremented only on failure or checksum mismatch) and the fuel is the number
of permitted iterations (`max_attempts + 1` at entry, since the guard admits
attempts `0..=max_attempts`). -/
def downloadLoop (env : Nat → DlStep) (force : Bool) (md5 : String) :
    Nat → Nat → LoopOut
  | _, 0 => ⟨0, 0, 0, false⟩
  | attempt, fuel + 1 =>
    let step := env attempt
    if step.status ≠ 0 then
      let r := downloadLoop env force md5 (attempt + 1) fuel
      ⟨r.invocations + 1, r.md5Checks, r.sleeps + 1, r.succeeded⟩
    else if force then ⟨1, 0, 0, true⟩
    else if step.fileMd5 == md5 then ⟨1, 1, 0, true⟩
    else
      let r := downloadLoop env force md5 (attempt + 1) fuel
      ⟨r.invocations + 1, r.md5Checks + 1, r.sleeps + 1, r.succeeded⟩

structure DlTrace where
  ret : Option String
  invocations : Nat
  md5Checks : Nat
  sleeps : Nat
  succeeded : Bool
deriving DecidableEq

inductive DlResult where
  | fatal
  | done (t : DlTrace)
deriving DecidableEq

def DlResult.invocations : DlResult → Nat
  | .fatal => 0
  | .done t => t.invocations

def DlResult.succeeded : DlResult → Bool
  | .fatal => false
  | .done t => t.succeeded

def DlResult.ret : DlResult → Option String
  | .fatal => none
  | .done t => t.ret

/-- `download` from `core.rs`.  `fs` is the set of files that already exist;
`fatal` models the `std::process::exit(1)` taken when no filename can be
derived from the URL. -/
def download (ftp outdir : String) (maxAttempts : Nat) (force : Bool)
    (md5 : String) (fs : List String) (env : Nat → DlStep) : DlResult :=
  match fileName ftp with
  | none => .fatal
  | some name =>
    let fastq := joinPath outdir name
    if fs.contains fastq && !force then .done ⟨none, 0, 0, 0, false⟩
    else
      let r := downloadLoop env force md5 0 (maxAttempts + 1)
      .done ⟨some fastq, r.invocations, r.md5Checks, r.sleeps, r.succeeded⟩

/-- A persistently failing transfer (constant nonzero exit status) makes the
loop consume all its fuel: one invocation and one sleep per permitted
attempt, no checksum computed, never the success break. -/
theorem downloadLoop_const_fail {c : Int} (hc : c ≠ 0) (fm md5 : String)
    (force : Bool) :
    ∀ fuel attempt,
      downloadLoop (fun _ => ⟨c, fm⟩) force md5 attempt fuel = ⟨fuel, 0, fuel, false⟩ := by
  intro fuel
  induction fuel with
  | zero => intro attempt; rfl
  | succ fuel ih =>
    intro attempt
    simp only [downloadLoop, ih (attempt + 1)]
    simp [hc]

/-- One unfolding of the retry loop. -/
theorem downloadLoop_succ (env : Nat → DlStep) (force : Bool) (md5 : String)
    (attempt fuel : Nat) :
    downloadLoop env force md5 attempt (fuel + 1) =
      if (env attempt).status ≠ 0 then
        let r := downloadLoop env force md5 (attempt + 1) fuel
        ⟨r.invocations + 1, r.md5Checks, r.sleeps + 1, r.succeeded⟩
      else if force then ⟨1, 0, 0, true⟩
      else if (env attempt).fileMd5 == md5 then ⟨1, 1, 0, true⟩
      else
        let r := downloadLoop env force md5 (attempt + 1) fuel
        ⟨r.invocations + 1, r.md5Checks + 1, r.sleeps + 1, r.succeeded⟩ := rfl

/-- With a zero exit status on every attempt and `force` off, the loop exits
through its success break exactly when the file's checksum equals the
expected string byte-for-byte. -/
theorem downloadLoop_const_ok (step : DlStep) (h : step.status = 0) (md5 : String) :
    ∀ fuel attempt,
      (downloadLoop (fun _ => step) false md5 attempt (fuel + 1)).succeeded =
        (step.fileMd5 == md5) := by
  intro fuel
  induction fuel with
  | zero =>
    intro attempt
    rw [downloadLoop_succ]
    cases hb : step.fileMd5 == md5 <;> simp [h, hb, downloadLoop]
  | succ fuel ih =>
    intro attempt
    rw [downloadLoop_succ]
    cases hb : step.fileMd5 == md5
    · have hrec := ih (attempt + 1)
      rw [hb] at hrec
      simp [h, hb, hrec]
    · simp [h, hb]

/-- Claim C3: with `overwrite=false` and an already-existing destination
file, `download` returns the skipped outcome (`None`) immediately — zero
transfer attempts, zero checksum computations, zero sleeps — so a second
invocation on an already-complete destination is an idempotent skip. -/
theorem C3_skip_existing (ftp outdir : String) (maxAttempts : Nat) (md5 : String)
    (fs : List String) (env : Nat → DlStep) (name : String)
    (hname : fileName ftp = some name)
    (hexists : fs.contains (joinPath outdir name) = true) :
    download ftp outdir maxAttempts false md5 fs env = .done ⟨none, 0, 0, 0, false⟩ := by
  have hmem : joinPath outdir name ∈ fs := by simpa using hexists
  simp [download, hname, hmem]

/-- Witness for C3: the destination derived from the URL already exists, so
the call is a skip with an all-zero trace. -/
theorem C3_skip_existing_witness :
    download "ftp.sra.ebi.ac.uk/vol1/fastq/SRR000001.fastq.gz" "out" 3 false
      "d41d8cd98f00b204e9800998ecf8427e" ["out/SRR000001.fastq.gz"] (fun _ => ⟨0, ""⟩)
      = .done ⟨none, 0, 0, 0, false⟩ :=
  C3_skip_existing "ftp.sra.ebi.ac.uk/vol1/fastq/SRR000001.fastq.gz" "out" 3
    "d41d8cd98f00b204e9800998ecf8427e" ["out/SRR000001.fastq.gz"] (fun _ => ⟨0, ""⟩)
    "SRR000001.fastq.gz" (by decide) (by decide)

/-- Claim C2 (the code violates it): with `overwrite=false`, a missing
destination and every attempt producing a checksum mismatch, the loop does
retry up to the configured bound (`maxAttempts + 1` invocations, each
mismatch followed by a sleep) — but after exhausting attempts `download`
returns `Some(path)`, the very value it returns on a successful verified
download, so failure is not distinguishable from success in the result. -/
theorem C2_checksum_exhaustion_returns_path :
    download "host/f.fastq.gz" "out" 2 false "ffff" [] (fun _ => ⟨0, "0000"⟩)
      = .done ⟨some "out/f.fastq.gz", 3, 3, 3, false⟩ ∧
    download "host/f.fastq.gz" "out" 2 false "ffff" [] (fun _ => ⟨0, "ffff"⟩)
      = .done ⟨some "out/f.fastq.gz", 1, 1, 0, true⟩ ∧
    (download "host/f.fastq.gz" "out" 2 false "ffff" [] (fun _ => ⟨0, "0000"⟩)).ret
      = (download "host/f.fastq.gz" "out" 2 false "ffff" [] (fun _ => ⟨0, "ffff"⟩)).ret := by
  refine ⟨by decide, by decide, by decide⟩

/-- Counterexample to claim C7: the computed digest `"ab"` differs from the
expected checksum `"AB"` only in hex-letter case, yet verification does not
succeed (the comparison in `download` is exact), while the same digest
against expected `"ab"` succeeds. -/
theorem C7_counterexample :
    hexCaseInsensitiveEq "ab" "AB" = true ∧ ¬ ("ab" = "AB") ∧
    (download "host/f.fastq.gz" "out" 0 false "AB" [] (fun _ => ⟨0, "ab"⟩)).succeeded
      = false ∧
    (download "host/f.fastq.gz" "out" 0 false "ab" [] (fun _ => ⟨0, "ab"⟩)).succeeded
      = true := by
  refine ⟨by decide, by decide, by decide, by decide⟩

/-- Claim C7 as amended: after a zero-exit transfer with `overwrite=false`,
verification succeeds (the loop breaks successfully) exactly when the
computed digest equals `expectedChecksum` as a byte-for-byte string — the
comparison is case-sensitive, so a checksum differing only in hex-letter
case is treated as a mismatch. -/
theorem C7_exact_comparison (step : DlStep) (h : step.status = 0)
    (md5 : String) (n attempt : Nat) :
    (downloadLoop (fun _ => step) false md5 attempt (n + 1)).succeeded =
      (step.fileMd5 == md5) :=
  downloadLoop_const_ok step h md5 n attempt

/-- Witness for the amended C7. -/
theorem C7_exact_comparison_witness :
    (downloadLoop (fun _ => DlStep.mk 0 "ab") false "ab" 0 1).succeeded = ("ab" == "ab") :=
  C7_exact_comparison (DlStep.mk 0 "ab") (by decide) "ab" 0 0

/-! ## Per-record FASTQ dispatch (`core.rs`: `download_fastq`)

`download_fastq` reads the four required record fields, splits `fastq_ftp`
and `fastq_md5` on `;`, optionally enforces the declared layout's file
count, and then iterates over `ftp_entries.zip(md5_entries)`, validating
each remote filename (only for `library_layout` equal to `PAIRED` or
`SINGLE`), requiring a nonempty checksum, and invoking `download`.  Every
`std::process::exit(1)` site is a `DfError`; the trace records the
`(ftp, md5)` pairs handed to `download` and how many entries had the
expected-filename validation applied. -/

inductive Layout where
  | Single
  | Paired
  | Global
deriving DecidableEq

inductive DfError where
  | MissingField (field : String)
  | WrongCount (expected found : Nat)
  | NoFileName (ftp : String)
  | BadFilename (accession observed : String)
  | EmptyMd5 (ftp : String)
deriving DecidableEq

structure DfOut where
  calls : List (String × String)
  nameChecks : Nat
  error : Option DfError
deriving DecidableEq

def EXTENSIONS : List String :=
  [".fastq.gz", ".fq.gz", "_subreads.fastq.gz", "_subreads.fq.gz",
   ".subreads.fastq.gz", ".subreads.fq.gz"]

/-- `__has_expected_filename` from `core.rs`. -/
def has_expected_filename (accession observed : String) (extensions : List String) : Bool :=
  extensions.any (fun ext => accession ++ ext == observed)

/-- The `for (ftp, md5) in ftp_entries.zip(md5_entries)` loop of
`download_fastq`: processing stops at the first fatal error, which discards
no already-issued download calls. -/
def df_loop (library_layout accession : String) :
    List (String × String) → DfOut
  | [] => ⟨[], 0, none⟩
  | (ftp, md5) :: rest =>
    match fileName ftp with
    | none => ⟨[], 0, some (.NoFileName ftp)⟩
    | some observed =>
      let nc : Nat := if library_layout == "PAIRED" || library_layout == "SINGLE" then 1 else 0
      let checkFail : Option DfError :=
        if library_layout == "PAIRED" then
          if !(strEndsWith ftp "_1.fastq.gz" || strEndsWith ftp "_2.fastq.gz") then
            if !has_expected_filename accession observed EXTENSIONS then
              some (.BadFilename accession observed)
            else none
          else none
        else if library_layout == "SINGLE" then
          if !has_expected_filename accession observed EXTENSIONS then
            some (.BadFilename accession observed)
          else none
        else none
      match checkFail with
      | some e => ⟨[], nc, some e⟩
      | none =>
        if md5 == "" then ⟨[], nc, some (.EmptyMd5 ftp)⟩
        else
          let r := df_loop library_layout accession rest
          ⟨(ftp, md5) :: r.calls, nc + r.nameChecks, r.error⟩

def lookupField (run : List (String × String)) (k : String) : Option String :=
  (run.find? (fun kv => kv.1 == k)).map (fun kv => kv.2)

/-- `download_fastq` from `core.rs`: field lookups (missing field is a fatal
error, in the code's check order), split of `fastq_ftp` and `fastq_md5` on
`;`, strict file-count check for a declared Single/Paired layout, then the
zipped per-entry loop. -/
def download_fastq (run : List (String × String)) (layout : Layout) : DfOut :=
  match lookupField run "fastq_ftp" with
  | none => ⟨[], 0, some (.MissingField "fastq_ftp")⟩
  | some fastq_ftp =>
  match lookupField run "fastq_md5" with
  | none => ⟨[], 0, some (.MissingField "fastq_md5")⟩
  | some fastq_md5 =>
  match lookupField run "library_layout" with
  | none => ⟨[], 0, some (.MissingField "library_layout")⟩
  | some library_layout =>
  match lookupField run "run_accession" with
  | none => ⟨[], 0, some (.MissingField "run_accession")⟩
  | some accession =>
    let ftp_entries := splitOnCharS ';' fastq_ftp
    let md5_entries := splitOnCharS ';' fastq_md5
    let pairs := ftp_entries.zip md5_entries
    match layout with
    | .Single =>
      if ftp_entries.length == 1 then df_loop library_layout accession pairs
      else ⟨[], 0, some (.WrongCount 1 ftp_entries.length)⟩
    | .Paired =>
      if ftp_entries.length == 2 then df_loop library_layout accession pairs
      else ⟨[], 0, some (.WrongCount 2 ftp_entries.length)⟩
    | .Global => df_loop library_layout accession pairs

/-- A run record with exactly the four required fields. -/
def mkRun (fastq_ftp fastq_md5 library_layout run_accession : String) :
    List (String × String) :=
  [("fastq_ftp", fastq_ftp), ("fastq_md5", fastq_md5),
   ("library_layout", library_layout), ("run_accession", run_accession)]

/-- Claim C1 (the code violates it): a record whose `fastq_ftp` splits to two
remote files while `fastq_md5` splits to a single checksum does not surface
any error — `download_fastq` zips the two lists and silently downloads only
the one-pair prefix. -/
theorem C1_silent_truncation :
    (splitOnCharS ';' "h/SRR1_1.fastq.gz;h/SRR1_2.fastq.gz").length = 2 ∧
    (splitOnCharS ';' "d41d8cd98f00b204e9800998ecf8427e").length = 1 ∧
    download_fastq
      (mkRun "h/SRR1_1.fastq.gz;h/SRR1_2.fastq.gz" "d41d8cd98f00b204e9800998ecf8427e"
        "PAIRED" "SRR1") .Global
      = ⟨[("h/SRR1_1.fastq.gz", "d41d8cd98f00b204e9800998ecf8427e")], 1, none⟩ := by
  refine ⟨by decide, by decide, by decide⟩

theorem df_loop_no_validation (library_layout accession : String)
    (h1 : library_layout ≠ "PAIRED") (h2 : library_layout ≠ "SINGLE") :
    ∀ pairs : List (String × String),
      (∀ p ∈ pairs, p.2 ≠ "") →
      (∀ p ∈ pairs, (fileName p.1).isSome) →
      df_loop library_layout accession pairs = ⟨pairs, 0, none⟩ := by
  have hb1 : (library_layout == "PAIRED") = false := by simpa using h1
  have hb2 : (library_layout == "SINGLE") = false := by simpa using h2
  intro pairs
  induction pairs with
  | nil => intro _ _; rfl
  | cons p rest ih =>
    intro hmd5 hname
    obtain ⟨ftp, md5⟩ := p
    have hobs : (fileName ftp).isSome := hname (ftp, md5) (List.mem_cons_self _ _)
    obtain ⟨observed, hob⟩ := Option.isSome_iff_exists.mp hobs
    have hmd : (md5 == "") = false := by
      simpa using hmd5 (ftp, md5) (List.mem_cons_self _ _)
    have hrec := ih (fun q hq => hmd5 q (List.mem_cons_of_mem _ hq))
      (fun q hq => hname q (List.mem_cons_of_mem _ hq))
    simp [df_loop, hob, hb1, hb2, hmd, hrec]

/-- Claim C9: in the ENA download path, the remote-filename validation is
applied only when `library_layout` is exactly `"PAIRED"` or `"SINGLE"`; for
any other value every remote filename is accepted without an expected-name
check, and each entry proceeds to the checksum-presence check and the
download call. -/
theorem C9_validation_only_paired_single
    (fastq_ftp fastq_md5 library_layout accession : String)
    (h1 : library_layout ≠ "PAIRED") (h2 : library_layout ≠ "SINGLE")
    (hmd5 : ∀ m ∈ splitOnCharS ';' fastq_md5, m ≠ "")
    (hname : ∀ f ∈ splitOnCharS ';' fastq_ftp, (fileName f).isSome) :
    download_fastq (mkRun fastq_ftp fastq_md5 library_layout accession) .Global
      = ⟨(splitOnCharS ';' fastq_ftp).zip (splitOnCharS ';' fastq_md5), 0, none⟩ := by
  have hloop := df_loop_no_validation library_layout accession h1 h2
    ((splitOnCharS ';' fastq_ftp).zip (splitOnCharS ';' fastq_md5))
    (fun p hp => hmd5 p.2 (List.of_mem_zip hp).2)
    (fun p hp => hname p.1 (List.of_mem_zip hp).1)
  simp [download_fastq, mkRun, lookupField, hloop]

/-- Witness for C9: a lowercase `"paired"` layout with filenames that match
no expected pattern is accepted with zero name checks, and both entries are
downloaded. -/
theorem C9_validation_only_paired_single_witness :
    download_fastq (mkRun "u/A.weird;u/B.weird" "m1;m2" "paired" "SRR1") .Global
      = ⟨[("u/A.weird", "m1"), ("u/B.weird", "m2")], 0, none⟩ := by
  have h := C9_validation_only_paired_single "u/A.weird;u/B.weird" "m1;m2" "paired" "SRR1"
    (by decide) (by decide) (by decide) (by decide)
  rw [h]
  decide

/-! ## SRA extraction pipeline (`provs/sra.rs`)

External tools are modelled by an environment: `onPath` says which tool
names `which` resolves, and `exec` gives, per spawn index, the exit code of
the spawned process (`none` models termination without an exit code)
together with the files it creates and removes.  `SraState` is the
observable world: the set of existing files, the spawn counter, the sleeps
performed, the spawned tool names in order, the directories created and the
files removed by the pipeline itself. -/

structure ProcResult where
  code : Option Int
  creates : List String
  removes : List String
deriving DecidableEq

structure SraState where
  fs : List String
  spawnIdx : Nat
  sleeps : Nat
  spawned : List String
  dirsCreated : List String
  removed : List String
deriving DecidableEq

def sraSt0 : SraState := ⟨[], 0, 0, [], [], []⟩

inductive SRAError where
  | MissingTool (tool : String)
  | CommandFailed (tool : String) (code : Int)
  | NotFound (tool : String)
  | IoFailure
  | NoFastqProduced (accession : String)
  | LayoutMismatch (accession : String)
deriving DecidableEq

deriving instance DecidableEq for Except

/-- Book-keeping for one process spawn: apply the process's file effects and
record the spawn. -/
def spawnUpdate (pr : ProcResult) (tool : String) (st : SraState) : SraState :=
  { st with
    fs := st.fs.filter (fun f => !(pr.removes.contains f)) ++ pr.creates,
    spawnIdx := st.spawnIdx + 1,
    spawned := st.spawned ++ [tool] }

/-- The `while current_attempt < attempts` loop of `run_with_retry`: the fuel
is `attempts - current_attempt`.  Exit code 0 is success; exit code 3 returns
`NotFound` at once; any other code is transient — on the last permitted
attempt it returns `CommandFailed` without sleeping, otherwise the loop
sleeps and retries; a missing exit code is `CommandFailed` with code -1.
With zero attempts the loop body never runs and the code returns
`CommandFailed` with code 1. -/
def run_with_retry_aux (exec : Nat → ProcResult) (tool : String) :
    Nat → SraState → Except SRAError Unit × SraState
  | 0, st => (.error (.CommandFailed tool 1), st)
  | fuel + 1, st =>
    let pr := exec st.spawnIdx
    let st1 := spawnUpdate pr tool st
    match pr.code with
    | none => (.error (.CommandFailed tool (-1)), st1)
    | some c =>
      if c = 0 then (.ok (), st1)
      else if c = 3 then (.error (.NotFound tool), st1)
      else if fuel = 0 then (.error (.CommandFailed tool c), st1)
      else run_with_retry_aux exec tool fuel { st1 with sleeps := st1.sleeps + 1 }

/-- `run_with_retry` from `provs/sra.rs`. -/
def run_with_retry (exec : Nat → ProcResult) (attempts : Nat) (tool : String)
    (st : SraState) : Except SRAError Unit × SraState :=
  run_with_retry_aux exec tool attempts st

/-- `ensure_tools` from `provs/sra.rs`: the first unresolvable tool of
`[prefetch, fasterq-dump, pigz]` is reported as `MissingTool`. -/
def ensure_tools (onPath : String → Bool) : Except SRAError Unit :=
  if onPath "prefetch" then
    if onPath "fasterq-dump" then
      if onPath "pigz" then .ok ()
      else .error (.MissingTool "pigz")
    else .error (.MissingTool "fasterq-dump")
  else .error (.MissingTool "prefetch")

def gz_candidates (accession outdir : String) : List String :=
  [joinPath outdir (accession ++ ".fastq.gz"),
   joinPath outdir (accession ++ "_1.fastq.gz"),
   joinPath outdir (accession ++ "_2.fastq.gz")]

def raw_candidates (accession outdir : String) : List String :=
  [joinPath outdir (accession ++ ".fastq"),
   joinPath outdir (accession ++ "_1.fastq"),
   joinPath outdir (accession ++ "_2.fastq")]

/-- `layout_satisfied` from `provs/sra.rs`. -/
def layout_satisfied (layout : Layout) (outdir accession : String)
    (fs : List String) : Bool :=
  let has_single := fs.contains (joinPath outdir (accession ++ ".fastq.gz"))
  let has_paired := fs.contains (joinPath outdir (accession ++ "_1.fastq.gz")) &&
                    fs.contains (joinPath outdir (accession ++ "_2.fastq.gz"))
  match layout with
  | .Single => has_single
  | .Paired => has_paired
  | .Global => has_single || has_paired

/-- The per-raw-file loop of `compress_fastqs`: each existing raw candidate
is compressed by one `pigz` invocation through `run_with_retry` with a
budget of a single attempt. -/
def compress_go (exec : Nat → ProcResult) :
    List String → List String → SraState → Except SRAError (List String) × SraState
  | [], produced, st => (.ok produced, st)
  | raw :: rest, produced, st =>
    if st.fs.contains raw then
      match run_with_retry exec 1 "pigz" st with
      | (.error e, st1) => (.error e, st1)
      | (.ok _, st1) => compress_go exec rest (produced ++ [raw ++ ".gz"]) st1
    else compress_go exec rest produced st

/-- `compress_fastqs` from `provs/sra.rs`. -/
def compress_fastqs (exec : Nat → ProcResult) (accession outdir : String)
    (st : SraState) : Except SRAError (List String) × SraState :=
  match compress_go exec (raw_candidates accession outdir) [] st with
  | (.ok produced, st1) =>
    if produced.isEmpty then (.error (.NoFastqProduced accession), st1)
    else (.ok produced, st1)
  | r => r

/-- `cleanup_sra` from `provs/sra.rs`: remove the intermediate container
file if it exists. -/
def cleanup_sra (accession outdir : String) (st : SraState) : SraState :=
  let sra := joinPath outdir (accession ++ ".sra")
  if st.fs.contains sra then
    { st with fs := st.fs.filter (fun f => !(f == sra)),
              removed := st.removed ++ [sra] }
  else st

/-- `download_run` from `provs/sra.rs`: tool check, output directory
creation, idempotent skip, optional force-removal of existing outputs, the
prefetch and fasterq-dump stages through `run_with_retry`, per-file
compression, container cleanup and the final layout check. -/
def download_run (onPath : String → Bool) (exec : Nat → ProcResult)
    (accession outdir : String) (attempts : Nat) (force : Bool) (layout : Layout)
    (st : SraState) : Except SRAError (List String) × SraState :=
  match ensure_tools onPath with
  | .error e => (.error e, st)
  | .ok _ =>
    let st1 := { st with dirsCreated := st.dirsCreated ++ [outdir] }
    let gz := gz_candidates accession outdir
    if !force && layout_satisfied layout outdir accession st1.fs then
      (.ok (gz.filter st1.fs.contains), st1)
    else
      let st2 :=
        if force then
          { st1 with removed := st1.removed ++ gz.filter st1.fs.contains,
                     fs := st1.fs.filter (fun f => !(gz.contains f)) }
        else st1
      match run_with_retry exec attempts "prefetch" st2 with
      | (.error e, st3) => (.error e, st3)
      | (.ok _, st3) =>
        match run_with_retry exec attempts "fasterq-dump" st3 with
        | (.error e, st4) => (.error e, st4)
        | (.ok _, st4) =>
          match compress_fastqs exec accession outdir st4 with
          | (.error e, st5) => (.error e, st5)
          | (.ok produced, st5) =>
            let st6 := cleanup_sra accession outdir st5
            if !(layout_satisfied layout outdir accession st6.fs) then
              (.error (.LayoutMismatch accession), st6)
            else
              (.ok (if produced.isEmpty then gz.filter st6.fs.contains else produced), st6)

/-- An exit code of 3 on the next spawn makes `run_with_retry` return
`NotFound` from that very spawn: one process invocation, no sleep, however
large the remaining attempt budget. -/
theorem run_with_retry_exit3 (exec : Nat → ProcResult) (tool : String)
    (st : SraState) (n : Nat) (hn : 1 ≤ n)
    (h3 : (exec st.spawnIdx).code = some 3) :
    run_with_retry exec n tool st
      = (.error (.NotFound tool), spawnUpdate (exec st.spawnIdx) tool st) := by
  match n, hn with
  | n + 1, _ =>
    simp only [run_with_retry, run_with_retry_aux, h3]
    norm_num

/-- One transient iteration of `run_with_retry_aux`. -/
theorem run_with_retry_aux_step (exec : Nat → ProcResult) (tool : String)
    (f : Nat) (st : SraState) (c : Int)
    (hcode : (exec st.spawnIdx).code = some c) (hc0 : c ≠ 0) (hc3 : c ≠ 3)
    (hf : f ≠ 0) :
    run_with_retry_aux exec tool (f + 1) st =
      run_with_retry_aux exec tool f
        { spawnUpdate (exec st.spawnIdx) tool st with
          sleeps := (spawnUpdate (exec st.spawnIdx) tool st).sleeps + 1 } := by
  simp only [run_with_retry_aux, hcode]
  simp [hc0, hc3, hf]

/-- A persistently failing process (constant exit code, neither 0 nor 3)
exhausts the whole attempt budget: `fuel` spawns and `fuel - 1` sleeps, then
`CommandFailed`. -/
theorem run_with_retry_const_fail {c : Int} (hc0 : c ≠ 0) (hc3 : c ≠ 3)
    (tool : String) (cr rm : List String) :
    ∀ fuel st, 1 ≤ fuel →
      (run_with_retry_aux (fun _ => ⟨some c, cr, rm⟩) tool fuel st).1
          = .error (.CommandFailed tool c) ∧
      (run_with_retry_aux (fun _ => ⟨some c, cr, rm⟩) tool fuel st).2.spawned.length
          = st.spawned.length + fuel ∧
      (run_with_retry_aux (fun _ => ⟨some c, cr, rm⟩) tool fuel st).2.sleeps
          = st.sleeps + (fuel - 1) := by
  intro fuel
  induction fuel with
  | zero => intro st h; exact absurd h (by omega)
  | succ f ih =>
    intro st _
    by_cases hf : f = 0
    · subst hf
      refine ⟨?_, ?_, ?_⟩ <;> simp [run_with_retry_aux, spawnUpdate, hc0, hc3]
    · rw [run_with_retry_aux_step (fun _ => ⟨some c, cr, rm⟩) tool f st c rfl hc0 hc3 hf]
      have hrec := ih { spawnUpdate ((fun (_ : Nat) => ProcResult.mk (some c) cr rm) st.spawnIdx) tool st with
          sleeps := (spawnUpdate ((fun (_ : Nat) => ProcResult.mk (some c) cr rm) st.spawnIdx) tool st).sleeps + 1 }
        (Nat.one_le_iff_ne_zero.mpr hf)
      refine ⟨hrec.1, ?_, ?_⟩
      · rw [hrec.2.1]
        simp [spawnUpdate]
        omega
      · rw [hrec.2.2]
        simp [spawnUpdate]
        omega

/-- Claim C4: when any of the three tools is missing, `download_run` returns
`MissingTool` for the first missing tool before doing any work — the world
state is returned unchanged: no directory created, no file removed, no
process spawned, no sleep. -/
theorem C4_tool_missing (onPath : String → Bool) (exec : Nat → ProcResult)
    (accession outdir : String) (attempts : Nat) (force : Bool) (layout : Layout)
    (st : SraState)
    (h : (onPath "prefetch" && onPath "fasterq-dump" && onPath "pigz") = false) :
    ∃ tool, onPath tool = false ∧
      download_run onPath exec accession outdir attempts force layout st
        = (.error (.MissingTool tool), st) := by
  cases hp : onPath "prefetch"
  · exact ⟨"prefetch", hp, by simp [download_run, ensure_tools, hp]⟩
  · cases hf : onPath "fasterq-dump"
    · exact ⟨"fasterq-dump", hf, by simp [download_run, ensure_tools, hp, hf]⟩
    · cases hz : onPath "pigz"
      · exact ⟨"pigz", hz, by simp [download_run, ensure_tools, hp, hf, hz]⟩
      · rw [hp, hf, hz] at h
        simp at h

/-- Witness for C4: only `prefetch` resolvable, everything else untouched. -/
theorem C4_tool_missing_witness :
    ∃ tool, (fun t => t == "prefetch") tool = false ∧
      download_run (fun t => t == "prefetch") (fun _ => ⟨some 0, [], []⟩)
        "SRR000001" "out" 3 false .Global sraSt0
        = (.error (.MissingTool tool), sraSt0) :=
  C4_tool_missing (fun t => t == "prefetch") (fun _ => ⟨some 0, [], []⟩)
    "SRR000001" "out" 3 false .Global sraSt0 (by decide)

def execExtract3 : Nat → ProcResult := fun n =>
  if n = 0 then ⟨some 0, ["out/SRR1.sra"], []⟩ else ⟨some 3, [], []⟩

def execCompress3 : Nat → ProcResult := fun n =>
  if n = 0 then ⟨some 0, ["out/SRR1.sra"], []⟩
  else if n = 1 then ⟨some 0, ["out/SRR1_1.fastq", "out/SRR1_2.fastq"], []⟩
  else ⟨some 3, [], []⟩

/-- Claim C10: exit code 3 is handled by the shared retry primitive, so the
`NotFound` classification applies at every stage of the SRA pipeline: the
generic part says `run_with_retry` returns `NotFound` from the very spawn
that exits 3, without consuming remaining attempts; the three concrete runs
show `download_run` surfacing `NotFound` for the fetch, extraction and
compression tools respectively. -/
theorem C10_exit3_notfound :
    (∀ (exec : Nat → ProcResult) (tool : String) (st : SraState) (n : Nat),
        1 ≤ n → (exec st.spawnIdx).code = some 3 →
        run_with_retry exec n tool st
          = (.error (.NotFound tool), spawnUpdate (exec st.spawnIdx) tool st)) ∧
    (download_run (fun _ => true) (fun _ => ⟨some 3, [], []⟩)
        "SRR1" "out" 5 false .Global sraSt0).1 = .error (.NotFound "prefetch") ∧
    (download_run (fun _ => true) execExtract3
        "SRR1" "out" 5 false .Global sraSt0).1 = .error (.NotFound "fasterq-dump") ∧
    (download_run (fun _ => true) execCompress3
        "SRR1" "out" 5 false .Global sraSt0).1 = .error (.NotFound "pigz") :=
  ⟨fun exec tool st n hn h3 => run_with_retry_exit3 exec tool st n hn h3,
   by decide, by decide, by decide⟩

/-- Witness for C10's generic part: a first spawn exiting 3 under a budget
of five attempts returns `NotFound` after that single spawn. -/
theorem C10_exit3_notfound_witness :
    run_with_retry (fun _ => ProcResult.mk (some 3) [] []) 5 "prefetch" sraSt0
      = (.error (.NotFound "prefetch"),
         spawnUpdate (ProcResult.mk (some 3) [] []) "prefetch" sraSt0) :=
  C10_exit3_notfound.1 (fun _ => ProcResult.mk (some 3) [] []) "prefetch" sraSt0 5
    (by decide) (by decide)

/-- Counterexample to claim C8: with the same attempts parameter (2) and a
process that persistently exits 1, the SRA fetch loop performs 2 process
invocations while the verified-download loop performs 3 — the totals are not
the same. -/
theorem C8_counterexample :
    (run_with_retry (fun _ => ⟨some 1, [], []⟩) 2 "prefetch" sraSt0).2.spawned.length = 2 ∧
    (download "h/f.fastq.gz" "out" 2 false "m" [] (fun _ => ⟨1, ""⟩)).invocations = 3 ∧
    ¬ ((2 : Nat) = 3) := by
  refine ⟨by decide, by decide, by decide⟩

/-- Claim C8 as amended: for the same attempts parameter `n ≥ 1` and a
persistently failing process (constant exit code, neither 0 nor 3), the SRA
fetch loop performs exactly `n` invocations with `n - 1` sleeps and reports
`CommandFailed`, while the verified-download loop performs `n + 1`
invocations with `n + 1` sleeps (it also sleeps after the final failure) and
never reaches its success break — one more try than the fetch loop, both
with the caller's delay between consecutive tries; and the fetch loop alone
turns exit code 3 into a fatal, non-retried `NotFound` on the spawn that
produced it. -/
theorem C8_retry_shapes (n : Nat) (hn : 1 ≤ n) (c : Int) (hc0 : c ≠ 0) (hc3 : c ≠ 3)
    (tool md5 fm : String) (st : SraState) :
    (run_with_retry (fun _ => ⟨some c, [], []⟩) n tool st).1
        = .error (.CommandFailed tool c) ∧
    (run_with_retry (fun _ => ⟨some c, [], []⟩) n tool st).2.spawned.length
        = st.spawned.length + n ∧
    (run_with_retry (fun _ => ⟨some c, [], []⟩) n tool st).2.sleeps
        = st.sleeps + (n - 1) ∧
    downloadLoop (fun _ => ⟨c, fm⟩) false md5 0 (n + 1) = ⟨n + 1, 0, n + 1, false⟩ ∧
    (run_with_retry (fun _ => ⟨some 3, [], []⟩) n tool st).1
        = .error (.NotFound tool) ∧
    (run_with_retry (fun _ => ⟨some 3, [], []⟩) n tool st).2.spawned.length
        = st.spawned.length + 1 := by
  have hcf := run_with_retry_const_fail hc0 hc3 tool [] [] n st hn
  have h3 := run_with_retry_exit3 (fun _ => ⟨some 3, [], []⟩) tool st n hn rfl
  refine ⟨hcf.1, hcf.2.1, hcf.2.2, downloadLoop_const_fail hc0 fm md5 false (n + 1) 0,
    ?_, ?_⟩
  · rw [run_with_retry] at h3
    rw [run_with_retry, h3]
  · rw [run_with_retry] at h3
    rw [run_with_retry, h3]
    simp [spawnUpdate]

/-- Witness for the amended C8, at attempts 2 and exit code 1. -/
theorem C8_retry_shapes_witness :
    (run_with_retry (fun _ => ⟨some 1, [], []⟩) 2 "prefetch" sraSt0).1
        = .error (.CommandFailed "prefetch" 1) ∧
    (run_with_retry (fun _ => ⟨some 1, [], []⟩) 2 "prefetch" sraSt0).2.spawned.length
        = sraSt0.spawned.length + 2 ∧
    (run_with_retry (fun _ => ⟨some 1, [], []⟩) 2 "prefetch" sraSt0).2.sleeps
        = sraSt0.sleeps + (2 - 1) ∧
    downloadLoop (fun _ => ⟨1, "x"⟩) false "m" 0 (2 + 1) = ⟨2 + 1, 0, 2 + 1, false⟩ ∧
    (run_with_retry (fun _ => ⟨some 3, [], []⟩) 2 "prefetch" sraSt0).1
        = .error (.NotFound "prefetch") ∧
    (run_with_retry (fun _ => ⟨some 3, [], []⟩) 2 "prefetch" sraSt0).2.spawned.length
        = sraSt0.spawned.length + 1 :=
  C8_retry_shapes 2 (by decide) 1 (by decide) (by decide) "prefetch" "m" "x" sraSt0

end Rsfq
